import Mathlib

/-!
# Verification of the ffmpeg-worker HTTP pipeline (`src/ffmpeg-worker/server.ts`)

Shallow embedding of the two Express handlers `POST /clip` and
`POST /extract-audio`.  Each handler is modelled as a pure Lean function from

* the inbound request body (fields are JavaScript values; a missing property
  destructures to `undefined`),
* an *environment* record carrying the outcomes of the external effects the
  handler awaits (the `Date.now()` clock readings used in scratch-file names,
  the success/failure of `fetch`, of the write stream, of the `ffmpeg`
  subprocess and of the storage upload, and the bytes the transcoder produced),
* the state of the storage collaborator (an association list
  bucket/key ↦ stored object),

to a result record holding the ordered trace of externally visible events the
handler performed (file creations/deletions, fetch/exec/upload calls, the HTTP
response), the final set of scratch files on disk, the final storage state and
the HTTP response.  The scratch directory is viewed per-request: the handler
starts from an empty file set, so the files tracked are exactly the ones this
invocation touches.  Console logging is not modelled (the spec excludes it
from the correctness surface).
-/

/-- A JavaScript value as it can appear in a parsed JSON request body (plus
`undefined`, which is what destructuring a missing property yields).  Numeric
values are modelled as integers; the claims under verification only involve
integral numbers. -/
inductive JSValue where
  | undefined
  | null
  | bool (b : Bool)
  | num (n : Int)
  | str (s : String)
deriving DecidableEq, Repr

/-- JavaScript falsiness: `undefined`, `null`, `false`, `0` and `""` are
falsy; every other modelled value is truthy. -/
def JSValue.falsy : JSValue → Bool
  | .undefined => true
  | .null => true
  | .bool b => !b
  | .num n => n == 0
  | .str s => s == ""

/-- JavaScript string coercion as performed by template literals. -/
def JSValue.toJSString : JSValue → String
  | .undefined => "undefined"
  | .null => "null"
  | .bool true => "true"
  | .bool false => "false"
  | .num n => toString n
  | .str s => s

/-- Body of a `POST /clip` request after `const { inputUrl, startTime,
endTime, fileName } = req.body`. -/
structure ClipRequest where
  inputUrl : JSValue
  startTime : JSValue
  endTime : JSValue
  fileName : JSValue
deriving DecidableEq, Repr

/-- Body of a `POST /extract-audio` request after
`const { inputUrl, fileName } = req.body`. -/
structure AudioRequest where
  inputUrl : JSValue
  fileName : JSValue
deriving DecidableEq, Repr

/-- The `{ error, stderr }` JSON shape of failure responses.  `stderr` is
`none` when the thrown error object had no `stderr` property (fetch errors,
stream errors, storage errors); it is `some` for subprocess failures. -/
structure ErrResp where
  message : String
  stderr : Option String
deriving DecidableEq, Repr

/-- The JSON body of an HTTP response of either handler. -/
inductive RespBody where
  | clipped (url : String)
  | audio (url : String)
  | err (e : ErrResp)
deriving DecidableEq, Repr

structure HttpResponse where
  status : Nat
  body : RespBody
deriving DecidableEq, Repr

/-- An object held by the storage collaborator. -/
structure StoredObject where
  content : String
  contentType : String
deriving DecidableEq, Repr

/-- State of the storage collaborator: (bucket, key) ↦ object. -/
abbrev StorageMap := List (String × String × StoredObject)

def storageGet (st : StorageMap) (bucket key : String) : Option StoredObject :=
  match st.find? (fun e => e.1 == bucket && e.2.1 == key) with
  | some e => some e.2.2
  | none => none

def storageSet (st : StorageMap) (bucket key : String) (obj : StoredObject) :
    StorageMap :=
  (bucket, key, obj) :: st.filter (fun e => !(e.1 == bucket && e.2.1 == key))

/-- Modelled from the spec: the storage collaborator contract
`upload(bucket, key, byteStream, contentType, overwrite) → success|error`
(the Supabase SDK itself is an external collaborator, not part of `src/`).
With `upsert := false` an existing object is an error; with `upsert := true`
the object is overwritten. -/
def storageUpload (st : StorageMap) (bucket key : String) (obj : StoredObject)
    (upsert : Bool) : Except String StorageMap :=
  match storageGet st bucket key, upsert with
  | some _, false => .error "The resource already exists"
  | _, _ => .ok (storageSet st bucket key obj)

/-- Modelled from the spec: `getPublicUrl` is "a pure string-construction
operation on the collaborator side"; it never fails and depends only on the
bucket and key. -/
def getPublicUrl (bucket key : String) : String :=
  "https://storage.example/object/public/" ++ bucket ++ "/" ++ key

/-- Externally visible events of one handler invocation, in program order. -/
inductive Event where
  | createFile (path : String)
  | deleteFile (path : String)
  | fetchStart (url : String)
  | execStart (cmd : String)
  | uploadStart (bucket key contentType : String) (upsert : Bool)
  | publicUrlGet (bucket key : String)
  | respond (status : Nat)
deriving DecidableEq, Repr

/-- `path.join(__dirname, 'temp')`, with `__dirname` left abstract as `temp`'s
parent; only the shape of the scratch paths matters. -/
def tempDir : String := "temp"

def pathJoin (dir file : String) : String := dir ++ "/" ++ file

/-- `path.join(tempDir, \x60input_${Date.now()}.mp4\x60)` (clip handler). -/
def clipTempInput (now : Nat) : String :=
  pathJoin tempDir ("input_" ++ Nat.repr now ++ ".mp4")

/-- `path.join(tempDir, \x60output_${Date.now()}.mp4\x60)` (clip handler). -/
def clipTempOutput (now : Nat) : String :=
  pathJoin tempDir ("output_" ++ Nat.repr now ++ ".mp4")

/-- `path.join(tempDir, \x60audio_input_${Date.now()}.mp4\x60)`. -/
def audioTempInput (now : Nat) : String :=
  pathJoin tempDir ("audio_input_" ++ Nat.repr now ++ ".mp4")

/-- `path.join(tempDir, \x60audio_output_${Date.now()}.wav\x60)`. -/
def audioTempOutput (now : Nat) : String :=
  pathJoin tempDir ("audio_output_" ++ Nat.repr now ++ ".wav")

/-- `fileName ? \x60${fileName}_audio.wav\x60 : \x60audio_${Date.now()}.wav\x60`:
the storage key of `/extract-audio`. -/
def audioStorageName (fileName : JSValue) (nowStore : Nat) : String :=
  if fileName.falsy then "audio_" ++ Nat.repr nowStore ++ ".wav"
  else fileName.toJSString ++ "_audio.wav"

/-- The `-vf` filter of the clip command. -/
def filterComplex : String :=
  "scale=1080:1920:force_original_aspect_ratio=decrease,pad=1080:1920:(ow-iw)/2:(oh-ih)/2"

/-- The clip ffmpeg command line, built by template-literal interpolation of
`startTime` and `endTime` (unquoted) and of the two scratch paths (quoted). -/
def clipCommand (startTime endTime tempInput tempOutput : String) : String :=
  "ffmpeg -ss " ++ startTime ++ " -to " ++ endTime ++ " -i \"" ++ tempInput ++
    "\" -vf \"" ++ filterComplex ++
    "\" -c:v libx264 -c:a aac -preset ultrafast -crf 30 -threads 1 -y \"" ++
    tempOutput ++ "\""

/-- The extract-audio ffmpeg command line. -/
def audioCommand (tempInput tempOutput : String) : String :=
  "ffmpeg -i \"" ++ tempInput ++ "\" -ac 1 -ar 16000 -vn -threads 1 -y \"" ++
    tempOutput ++ "\""

/-- `if (fs.existsSync(p)) fs.unlinkSync(p)` on the per-request file set,
also recording the deletion event it performs. -/
def unlinkIfExists (fs : List String) (p : String) :
    List String × List Event :=
  if fs.contains p then (fs.erase p, [Event.deleteFile p]) else (fs, [])

/-- The cleanup block shared by every exit path: unlink `tempInput` if it
exists, then unlink `tempOutput` if it exists. -/
def cleanupBoth (fs : List String) (tempInput tempOutput : String) :
    List String × List Event :=
  let r1 := unlinkIfExists fs tempInput
  let r2 := unlinkIfExists r1.1 tempOutput
  (r2.1, r1.2 ++ r2.2)

/-- `fs.createWriteStream` / the transcoder writing its output: the path is
put on disk (idempotently, matching `-y` overwrite). -/
def addFile (fs : List String) (p : String) : List String :=
  if fs.contains p then fs else fs ++ [p]

/-- An error rejected by `execAsync`: exit status message plus captured
`stderr`. -/
structure ExecError where
  message : String
  stderr : String
deriving DecidableEq, Repr

/-- Outcomes of the external effects one `/clip` invocation awaits. -/
structure ClipEnv where
  /-- `Date.now()` observed when naming `tempInput`. -/
  nowIn : Nat
  /-- `Date.now()` observed when naming `tempOutput`. -/
  nowOut : Nat
  /-- `response.ok` of the fetch. -/
  fetchOk : Bool
  /-- whether `response.body` is non-null. -/
  fetchHasBody : Bool
  /-- `some m`: the file stream emitted `error` with message `m`;
  `none`: it emitted `finish`. -/
  streamErr : Option String
  /-- `some e`: the subprocess exited non-zero or was not found. -/
  execErr : Option ExecError
  /-- `some m`: the storage collaborator reported error `m` on upload. -/
  uploadErr : Option String
  /-- The bytes the transcoder wrote to `tempOutput` (opaque). -/
  outputContent : String
deriving DecidableEq, Repr

/-- Result of one handler invocation. -/
structure HandlerResult where
  events : List Event
  fs : List String
  storage : StorageMap
  response : HttpResponse
deriving DecidableEq, Repr

/-- The `catch` block of `/clip` (and `/extract-audio`): cleanup of both
scratch paths, then `res.status(500).json({ error, stderr })`. -/
def catchBlock (st : StorageMap) (evs : List Event) (fs : List String)
    (e : ErrResp) (tempInput tempOutput : String) : HandlerResult :=
  let c := cleanupBoth fs tempInput tempOutput
  { events := evs ++ c.2 ++ [Event.respond 500], fs := c.1, storage := st,
    response := ⟨500, .err e⟩ }

/-- The `try` block of `POST /clip`, entered after validation passed and the
two scratch paths were chosen. -/
def clipTry (env : ClipEnv) (st : StorageMap) (r : ClipRequest)
    (tempInput tempOutput : String) : HandlerResult :=
  let ev0 := [Event.fetchStart r.inputUrl.toJSString]
  if !env.fetchOk then
    catchBlock st ev0 [] ⟨"Failed to fetch video", none⟩ tempInput tempOutput
  else if !env.fetchHasBody then
    catchBlock st ev0 [] ⟨"No response body", none⟩ tempInput tempOutput
  else
    let ev1 := ev0 ++ [Event.createFile tempInput]
    let fs1 := addFile [] tempInput
    match env.streamErr with
    | some m => catchBlock st ev1 fs1 ⟨m, none⟩ tempInput tempOutput
    | none =>
      let cmd := clipCommand r.startTime.toJSString r.endTime.toJSString
        tempInput tempOutput
      let ev2 := ev1 ++ [Event.execStart cmd]
      match env.execErr with
      | some e =>
        catchBlock st ev2 fs1 ⟨e.message, some e.stderr⟩ tempInput tempOutput
      | none =>
        let ev3 := ev2 ++ [Event.createFile tempOutput]
        let fs2 := addFile fs1 tempOutput
        let key := r.fileName.toJSString
        let ev4 := ev3 ++ [Event.uploadStart "processed-videos" key "video/mp4" true]
        match env.uploadErr with
        | some m => catchBlock st ev4 fs2 ⟨m, none⟩ tempInput tempOutput
        | none =>
          match storageUpload st "processed-videos" key
              ⟨env.outputContent, "video/mp4"⟩ true with
          | .error m => catchBlock st ev4 fs2 ⟨m, none⟩ tempInput tempOutput
          | .ok st2 =>
            let ev5 := ev4 ++ [Event.publicUrlGet "processed-videos" key]
            let url := getPublicUrl "processed-videos" key
            let c := cleanupBoth fs2 tempInput tempOutput
            { events := ev5 ++ c.2 ++ [Event.respond 200], fs := c.1,
              storage := st2, response := ⟨200, .clipped url⟩ }

/-- The `/clip` validation predicate:
`!inputUrl || startTime === undefined || endTime === undefined || !fileName`. -/
def clipValidationFails (r : ClipRequest) : Bool :=
  r.inputUrl.falsy || r.startTime == JSValue.undefined ||
    r.endTime == JSValue.undefined || r.fileName.falsy

/-- The full `POST /clip` handler. -/
def clipHandler (env : ClipEnv) (st : StorageMap) (r : ClipRequest) :
    HandlerResult :=
  if clipValidationFails r then
    { events := [Event.respond 400], fs := [], storage := st,
      response := ⟨400, .err
        ⟨"Missing required parameters: inputUrl, startTime, endTime, fileName",
         none⟩⟩ }
  else
    clipTry env st r (clipTempInput env.nowIn) (clipTempOutput env.nowOut)

/-- Outcomes of the external effects one `/extract-audio` invocation awaits. -/
structure AudioEnv where
  /-- `Date.now()` observed when naming `tempInput`. -/
  nowIn : Nat
  /-- `Date.now()` observed when naming `tempOutput`. -/
  nowOut : Nat
  /-- `Date.now()` observed when generating the storage name (evaluated only
  when `fileName` is falsy). -/
  nowStore : Nat
  fetchOk : Bool
  fetchHasBody : Bool
  streamErr : Option String
  execErr : Option ExecError
  uploadErr : Option String
  outputContent : String
deriving DecidableEq, Repr

/-- The `try` block of `POST /extract-audio`. -/
def audioTry (env : AudioEnv) (st : StorageMap) (r : AudioRequest)
    (tempInput tempOutput storageFileName : String) : HandlerResult :=
  let ev0 := [Event.fetchStart r.inputUrl.toJSString]
  if !env.fetchOk then
    catchBlock st ev0 [] ⟨"Failed to fetch video", none⟩ tempInput tempOutput
  else if !env.fetchHasBody then
    catchBlock st ev0 [] ⟨"No response body", none⟩ tempInput tempOutput
  else
    let ev1 := ev0 ++ [Event.createFile tempInput]
    let fs1 := addFile [] tempInput
    match env.streamErr with
    | some m => catchBlock st ev1 fs1 ⟨m, none⟩ tempInput tempOutput
    | none =>
      let cmd := audioCommand tempInput tempOutput
      let ev2 := ev1 ++ [Event.execStart cmd]
      match env.execErr with
      | some e =>
        catchBlock st ev2 fs1 ⟨e.message, some e.stderr⟩ tempInput tempOutput
      | none =>
        let ev3 := ev2 ++ [Event.createFile tempOutput]
        let fs2 := addFile fs1 tempOutput
        let ev4 := ev3 ++
          [Event.uploadStart "processed-videos" storageFileName "audio/wav" true]
        match env.uploadErr with
        | some m => catchBlock st ev4 fs2 ⟨m, none⟩ tempInput tempOutput
        | none =>
          match storageUpload st "processed-videos" storageFileName
              ⟨env.outputContent, "audio/wav"⟩ true with
          | .error m => catchBlock st ev4 fs2 ⟨m, none⟩ tempInput tempOutput
          | .ok st2 =>
            let ev5 := ev4 ++ [Event.publicUrlGet "processed-videos" storageFileName]
            let url := getPublicUrl "processed-videos" storageFileName
            let c := cleanupBoth fs2 tempInput tempOutput
            { events := ev5 ++ c.2 ++ [Event.respond 200], fs := c.1,
              storage := st2, response := ⟨200, .audio url⟩ }

/-- True exactly for `createFile` events. -/
def Event.isCreate : Event → Bool
  | .createFile _ => true
  | _ => false

/-- True exactly for `execStart` events (the transcoder subprocess call). -/
def Event.isExec : Event → Bool
  | .execStart _ => true
  | _ => false

/-- True exactly for `uploadStart` events (the storage upload call). -/
def Event.isUpload : Event → Bool
  | .uploadStart .. => true
  | _ => false

/-- Effect of one event on the set of scratch files on disk. -/
def fsStep (fs : List String) : Event → List String
  | .createFile p => addFile fs p
  | .deleteFile p => fs.erase p
  | _ => fs

/-- The scratch files on disk after a trace (starting from a directory that,
as this request sees it, is empty). -/
def liveFiles (evs : List Event) : List String := evs.foldl fsStep []

/-- The value of a decimal digit character. -/
def digitVal (c : Char) : Nat := c.toNat - 48

/-- Parse a decimal digit string back to a number (left inverse used to show
that distinct `Date.now()` readings yield distinct embedded filename
tokens). -/
def parseDigits (l : List Char) : Nat :=
  l.foldl (fun a c => 10 * a + digitVal c) 0

/-- Model of the download stage of `server.ts`
(`Readable.fromWeb(response.body).pipe(fileStream)` awaited to `finish`):
the body arrives as a sequence of chunks and each chunk is appended to the
scratch file before the next one arrives, so the body bytes resident in
memory at any instant are at most one chunk.  The result is the file contents
together with the peak number of body bytes simultaneously held in memory. -/
def streamToFile : List (List Nat) → List Nat → Nat → List Nat × Nat
  | [], file, peak => (file, peak)
  | c :: rest, file, peak => streamToFile rest (file ++ c) (max peak c.length)

def streamDownload (chunks : List (List Nat)) : List Nat × Nat :=
  streamToFile chunks [] 0

/-- Model of the historical buffering variant
(`dist/temp/server.js`: `await response.arrayBuffer()` then
`fs.writeFileSync`): the whole body is materialised in memory before any byte
reaches the file, so the peak is the total body size. -/
def bufferDownload (chunks : List (List Nat)) : List Nat × Nat :=
  let buf := chunks.foldl (fun a c => a ++ c) []
  (buf, buf.length)

/-- The `/extract-audio` validation predicate: `!inputUrl`. -/
def audioValidationFails (r : AudioRequest) : Bool :=
  r.inputUrl.falsy

/-- The full `POST /extract-audio` handler. -/
def audioHandler (env : AudioEnv) (st : StorageMap) (r : AudioRequest) :
    HandlerResult :=
  if audioValidationFails r then
    { events := [Event.respond 400], fs := [], storage := st,
      response := ⟨400, .err ⟨"Missing required parameter: inputUrl", none⟩⟩ }
  else
    audioTry env st r (audioTempInput env.nowIn) (audioTempOutput env.nowOut)
      (audioStorageName r.fileName env.nowStore)

/-! Sample concrete inputs used by the witness theorems. -/

def sampleClipRequest : ClipRequest :=
  ⟨.str "https://example.com/v.mp4", .num 1, .num 2, .str "clip1.mp4"⟩

def sampleAudioRequest : AudioRequest :=
  ⟨.str "https://example.com/v.mp4", .str "clip1"⟩

def sampleClipEnv : ClipEnv :=
  ⟨100, 100, true, true, none, none, none, "outbytes"⟩

def sampleAudioEnv : AudioEnv :=
  ⟨100, 100, 100, true, true, none, none, none, "outbytes"⟩

/-! ## Helper lemmas: decimal rendering is injective -/

theorem toDigitsCore_append (fuel n : Nat) (ds : List Char) :
    Nat.toDigitsCore 10 fuel n ds = Nat.toDigitsCore 10 fuel n [] ++ ds := by
  induction fuel generalizing n ds with
  | zero => simp [Nat.toDigitsCore]
  | succ f ih =>
    simp only [Nat.toDigitsCore]
    by_cases h : n / 10 = 0
    · simp [h]
    · simp only [h, if_false]
      rw [ih (n / 10) ((n % 10).digitChar :: ds), ih (n / 10) [(n % 10).digitChar]]
      simp

theorem digitVal_digitChar (r : Nat) (h : r < 10) :
    digitVal (Nat.digitChar r) = r := by
  interval_cases r <;> decide

theorem parseDigits_toDigitsCore (fuel n : Nat) (h : n < fuel) :
    parseDigits (Nat.toDigitsCore 10 fuel n []) = n := by
  induction fuel generalizing n with
  | zero => omega
  | succ f ih =>
    simp only [Nat.toDigitsCore]
    by_cases h0 : n / 10 = 0
    · have hn : n < 10 := by omega
      simp [h0, parseDigits, digitVal_digitChar (n % 10) (Nat.mod_lt _ (by omega))]
      omega
    · simp only [h0, if_false]
      rw [toDigitsCore_append]
      have hlt : n / 10 < f := by
        have : n / 10 < n := Nat.div_lt_self (by omega) (by omega)
        omega
      have := ih (n / 10) hlt
      simp [parseDigits, List.foldl_append] at this ⊢
      rw [this]
      have hm : n % 10 < 10 := Nat.mod_lt _ (by omega)
      rw [digitVal_digitChar (n % 10) hm]
      omega

theorem natReprData_injective {n m : Nat}
    (h : (Nat.repr n).data = (Nat.repr m).data) : n = m := by
  have hn := parseDigits_toDigitsCore (n + 1) n (Nat.lt_succ_self n)
  have hm := parseDigits_toDigitsCore (m + 1) m (Nat.lt_succ_self m)
  simp only [Nat.repr, Nat.toDigits, List.asString] at h
  rw [← hn, ← hm]
  exact congrArg parseDigits h

theorem natRepr_injective {n m : Nat} (h : Nat.repr n = Nat.repr m) : n = m :=
  natReprData_injective (congrArg String.data h)

/-! ## Helper lemmas: scratch paths -/

theorem clipTempInput_inj {n m : Nat} (h : clipTempInput n = clipTempInput m) :
    n = m := by
  have hd := congrArg String.data h
  simp [clipTempInput, pathJoin, tempDir] at hd
  exact natReprData_injective hd

theorem clipTempOutput_inj {n m : Nat}
    (h : clipTempOutput n = clipTempOutput m) : n = m := by
  have hd := congrArg String.data h
  simp [clipTempOutput, pathJoin, tempDir] at hd
  exact natReprData_injective hd

theorem audioTempInput_inj {n m : Nat}
    (h : audioTempInput n = audioTempInput m) : n = m := by
  have hd := congrArg String.data h
  simp [audioTempInput, pathJoin, tempDir] at hd
  exact natReprData_injective hd

theorem audioTempOutput_inj {n m : Nat}
    (h : audioTempOutput n = audioTempOutput m) : n = m := by
  have hd := congrArg String.data h
  simp [audioTempOutput, pathJoin, tempDir] at hd
  exact natReprData_injective hd

theorem audioGeneratedName_inj {n m : Nat}
    (h : ("audio_" ++ Nat.repr n ++ ".wav" : String) =
         "audio_" ++ Nat.repr m ++ ".wav") : n = m := by
  have hd := congrArg String.data h
  simp at hd
  exact natReprData_injective hd

theorem clipTempInput_ne_clipTempOutput (n m : Nat) :
    clipTempInput n ≠ clipTempOutput m := by
  intro h
  have hd := congrArg String.data h
  simp [clipTempInput, clipTempOutput, pathJoin, tempDir] at hd

theorem audioTempInput_ne_audioTempOutput (n m : Nat) :
    audioTempInput n ≠ audioTempOutput m := by
  intro h
  have hd := congrArg String.data h
  simp [audioTempInput, audioTempOutput, pathJoin, tempDir] at hd

theorem clipTempInput_ne_audioTempInput (n m : Nat) :
    clipTempInput n ≠ audioTempInput m := by
  intro h
  have hd := congrArg String.data h
  simp [clipTempInput, audioTempInput, pathJoin, tempDir] at hd

theorem clipTempInput_ne_audioTempOutput (n m : Nat) :
    clipTempInput n ≠ audioTempOutput m := by
  intro h
  have hd := congrArg String.data h
  simp [clipTempInput, audioTempOutput, pathJoin, tempDir] at hd

theorem clipTempOutput_ne_audioTempInput (n m : Nat) :
    clipTempOutput n ≠ audioTempInput m := by
  intro h
  have hd := congrArg String.data h
  simp [clipTempOutput, audioTempInput, pathJoin, tempDir] at hd

theorem clipTempOutput_ne_audioTempOutput (n m : Nat) :
    clipTempOutput n ≠ audioTempOutput m := by
  intro h
  have hd := congrArg String.data h
  simp [clipTempOutput, audioTempOutput, pathJoin, tempDir] at hd

/-! ## Helper lemmas: storage and traces -/

theorem storageUpload_upsert (st : StorageMap) (b k : String)
    (o : StoredObject) :
    storageUpload st b k o true = .ok (storageSet st b k o) := by
  cases h : storageGet st b k <;> simp [storageUpload, h]

theorem liveFiles_foldl_length_le (evs : List Event) (acc : List String) :
    (evs.foldl fsStep acc).length ≤ acc.length + evs.countP Event.isCreate := by
  induction evs generalizing acc with
  | nil => simp
  | cons e rest ih =>
    have step : (fsStep acc e).length ≤
        acc.length + (if Event.isCreate e then 1 else 0) := by
      cases e <;> simp [fsStep, addFile, Event.isCreate]
      · split
        · simp
        · simp
      · exact List.length_erase_le _ _
    calc (List.foldl fsStep (fsStep acc e) rest).length
        ≤ (fsStep acc e).length + rest.countP Event.isCreate := ih _
      _ ≤ acc.length + (if Event.isCreate e then 1 else 0) +
            rest.countP Event.isCreate := by omega
      _ ≤ acc.length + (e :: rest).countP Event.isCreate := by
            simp [List.countP_cons]
            split <;> omega

theorem liveFiles_length_le (evs : List Event) :
    (liveFiles evs).length ≤ evs.countP Event.isCreate := by
  simpa using liveFiles_foldl_length_le evs []

theorem liveFiles_prefix_le_two (evs : List Event)
    (h : evs.countP Event.isCreate ≤ 2) :
    ∀ pre, pre <+: evs → (liveFiles pre).length ≤ 2 := by
  intro pre hpre
  calc (liveFiles pre).length ≤ pre.countP Event.isCreate :=
        liveFiles_length_le pre
    _ ≤ evs.countP Event.isCreate := hpre.sublist.countP_le _
    _ ≤ 2 := h
theorem clipTry_cleanup (env : ClipEnv) (st : StorageMap) (r : ClipRequest)
    (tin tout : String) (hne : tin ≠ tout) :
    (clipTry env st r tin tout).fs = [] ∧
    (clipTry env st r tin tout).events.countP Event.isCreate ≤ 2 ∧
    (clipTry env st r tin tout).events.getLast? =
      some (Event.respond (clipTry env st r tin tout).response.status) ∧
    liveFiles (clipTry env st r tin tout).events.dropLast = [] := by
  obtain ⟨nIn, nOut, fOk, fBody, sErr, eErr, uErr, outc⟩ := env
  cases fOk <;> cases fBody <;> cases sErr <;> cases eErr <;> cases uErr <;>
    simp [clipTry, catchBlock, cleanupBoth, unlinkIfExists, addFile,
      liveFiles, fsStep, storageUpload_upsert, hne, Ne.symm hne,
      Event.isCreate, List.countP_cons, List.getLast?_append,
      List.dropLast_append_cons]

theorem audioTry_cleanup (env : AudioEnv) (st : StorageMap) (r : AudioRequest)
    (tin tout nm : String) (hne : tin ≠ tout) :
    (audioTry env st r tin tout nm).fs = [] ∧
    (audioTry env st r tin tout nm).events.countP Event.isCreate ≤ 2 ∧
    (audioTry env st r tin tout nm).events.getLast? =
      some (Event.respond (audioTry env st r tin tout nm).response.status) ∧
    liveFiles (audioTry env st r tin tout nm).events.dropLast = [] := by
  obtain ⟨nIn, nOut, nSt, fOk, fBody, sErr, eErr, uErr, outc⟩ := env
  cases fOk <;> cases fBody <;> cases sErr <;> cases eErr <;> cases uErr <;>
    simp [audioTry, catchBlock, cleanupBoth, unlinkIfExists, addFile,
      liveFiles, fsStep, storageUpload_upsert, hne, Ne.symm hne,
      Event.isCreate, List.countP_cons, List.getLast?_append,
      List.dropLast_append_cons]

/-! ## Claim theorems -/

/-- **C1.**  For every `/clip` or `/extract-audio` request that passes
validation, both scratch files (the downloaded input and the transcoder
output) are deleted before the HTTP response is sent, on every exit path
(the environment ranges over success, fetch failure, missing body, stream
failure, transcode failure and upload failure): the final scratch-file set is
empty, the last trace event is the HTTP response, the scratch-file set just
before that response is already empty, and along every prefix of the trace at
most two scratch files are ever live. -/
theorem clip_audio_scratch_cleanup_every_path
    (envC : ClipEnv) (stC : StorageMap) (rC : ClipRequest)
    (envA : AudioEnv) (stA : StorageMap) (rA : AudioRequest)
    (hC : clipValidationFails rC = false)
    (hA : audioValidationFails rA = false) :
    ((clipHandler envC stC rC).fs = [] ∧
      (clipHandler envC stC rC).events.getLast? =
        some (Event.respond (clipHandler envC stC rC).response.status) ∧
      liveFiles (clipHandler envC stC rC).events.dropLast = [] ∧
      ∀ pre, pre <+: (clipHandler envC stC rC).events →
        (liveFiles pre).length ≤ 2) ∧
    ((audioHandler envA stA rA).fs = [] ∧
      (audioHandler envA stA rA).events.getLast? =
        some (Event.respond (audioHandler envA stA rA).response.status) ∧
      liveFiles (audioHandler envA stA rA).events.dropLast = [] ∧
      ∀ pre, pre <+: (audioHandler envA stA rA).events →
        (liveFiles pre).length ≤ 2) := by
  constructor
  · have h := clipTry_cleanup envC stC rC (clipTempInput envC.nowIn)
      (clipTempOutput envC.nowOut)
      (clipTempInput_ne_clipTempOutput envC.nowIn envC.nowOut)
    simp only [clipHandler, hC, Bool.false_eq_true, if_false]
    exact ⟨h.1, h.2.2.1, h.2.2.2, liveFiles_prefix_le_two _ h.2.1⟩
  · have h := audioTry_cleanup envA stA rA (audioTempInput envA.nowIn)
      (audioTempOutput envA.nowOut) (audioStorageName rA.fileName envA.nowStore)
      (audioTempInput_ne_audioTempOutput envA.nowIn envA.nowOut)
    simp only [audioHandler, hA, Bool.false_eq_true, if_false]
    exact ⟨h.1, h.2.2.1, h.2.2.2, liveFiles_prefix_le_two _ h.2.1⟩

/-- Witness for C1 at concrete inputs (a successful clip run and a successful
extract-audio run). -/
theorem clip_audio_scratch_cleanup_every_path_witness :
    clipValidationFails sampleClipRequest = false ∧
    audioValidationFails sampleAudioRequest = false ∧
    (((clipHandler sampleClipEnv [] sampleClipRequest).fs = [] ∧
      (clipHandler sampleClipEnv [] sampleClipRequest).events.getLast? =
        some (Event.respond
          (clipHandler sampleClipEnv [] sampleClipRequest).response.status) ∧
      liveFiles (clipHandler sampleClipEnv [] sampleClipRequest).events.dropLast
        = [] ∧
      ∀ pre, pre <+: (clipHandler sampleClipEnv [] sampleClipRequest).events →
        (liveFiles pre).length ≤ 2) ∧
    ((audioHandler sampleAudioEnv [] sampleAudioRequest).fs = [] ∧
      (audioHandler sampleAudioEnv [] sampleAudioRequest).events.getLast? =
        some (Event.respond
          (audioHandler sampleAudioEnv [] sampleAudioRequest).response.status) ∧
      liveFiles
        (audioHandler sampleAudioEnv [] sampleAudioRequest).events.dropLast
        = [] ∧
      ∀ pre, pre <+: (audioHandler sampleAudioEnv [] sampleAudioRequest).events →
        (liveFiles pre).length ≤ 2)) :=
  ⟨by decide, by decide,
    clip_audio_scratch_cleanup_every_path sampleClipEnv [] sampleClipRequest
      sampleAudioEnv [] sampleAudioRequest (by decide) (by decide)⟩

/-- Status of the `try` block of `/clip`: 200 on full success, 500 on any
stage failure. -/
theorem clipTry_status (env : ClipEnv) (st : StorageMap) (r : ClipRequest)
    (tin tout : String) :
    (clipTry env st r tin tout).response.status = 200 ∨
    (clipTry env st r tin tout).response.status = 500 := by
  obtain ⟨nIn, nOut, fOk, fBody, sErr, eErr, uErr, outc⟩ := env
  cases fOk <;> cases fBody <;> cases sErr <;> cases eErr <;> cases uErr <;>
    simp [clipTry, catchBlock, storageUpload_upsert]

/-- Status of the `try` block of `/extract-audio`. -/
theorem audioTry_status (env : AudioEnv) (st : StorageMap) (r : AudioRequest)
    (tin tout nm : String) :
    (audioTry env st r tin tout nm).response.status = 200 ∨
    (audioTry env st r tin tout nm).response.status = 500 := by
  obtain ⟨nIn, nOut, nSt, fOk, fBody, sErr, eErr, uErr, outc⟩ := env
  cases fOk <;> cases fBody <;> cases sErr <;> cases eErr <;> cases uErr <;>
    simp [audioTry, catchBlock, storageUpload_upsert]

/-- **C3.**  A `/clip` request in which `inputUrl`, `startTime`, `endTime` or
`fileName` is absent (destructures to `undefined`), and an `/extract-audio`
request in which `inputUrl` is absent, is answered 400 with no fetch,
transcode, upload or scratch-file event at all; moreover 400 is returned
exactly for validation failures, and a request that passes validation is
answered 200 or 500, never 400. -/
theorem missing_field_responds_400_with_no_effects
    (envC : ClipEnv) (stC : StorageMap) (rC : ClipRequest)
    (envA : AudioEnv) (stA : StorageMap) (rA : AudioRequest)
    (hC : rC.inputUrl = .undefined ∨ rC.startTime = .undefined ∨
          rC.endTime = .undefined ∨ rC.fileName = .undefined)
    (hA : rA.inputUrl = .undefined) :
    ((clipHandler envC stC rC).response.status = 400 ∧
      (clipHandler envC stC rC).events = [Event.respond 400] ∧
      (clipHandler envC stC rC).fs = []) ∧
    ((audioHandler envA stA rA).response.status = 400 ∧
      (audioHandler envA stA rA).events = [Event.respond 400] ∧
      (audioHandler envA stA rA).fs = []) ∧
    (∀ env st r, (clipHandler env st r).response.status = 400 ↔
      clipValidationFails r = true) ∧
    (∀ env st r, (audioHandler env st r).response.status = 400 ↔
      audioValidationFails r = true) ∧
    (∀ env st r, clipValidationFails r = false →
      (clipHandler env st r).response.status = 200 ∨
      (clipHandler env st r).response.status = 500) ∧
    (∀ env st r, audioValidationFails r = false →
      (audioHandler env st r).response.status = 200 ∨
      (audioHandler env st r).response.status = 500) := by
  refine ⟨?_, ?_, ?_, ?_, ?_, ?_⟩
  · have hv : clipValidationFails rC = true := by
      rcases hC with h | h | h | h <;>
        simp [clipValidationFails, h, JSValue.falsy]
    simp [clipHandler, hv]
  · have hv : audioValidationFails rA = true := by
      simp [audioValidationFails, hA, JSValue.falsy]
    simp [audioHandler, hv]
  · intro env st r
    by_cases hv : clipValidationFails r = true
    · simp [clipHandler, hv]
    · rcases clipTry_status env st r (clipTempInput env.nowIn)
        (clipTempOutput env.nowOut) with h | h <;>
        simp [clipHandler, hv] at h ⊢ <;> simp [h, hv]
  · intro env st r
    by_cases hv : audioValidationFails r = true
    · simp [audioHandler, hv]
    · rcases audioTry_status env st r (audioTempInput env.nowIn)
        (audioTempOutput env.nowOut) (audioStorageName r.fileName env.nowStore)
        with h | h <;>
        simp [audioHandler, hv] at h ⊢ <;> simp [h, hv]
  · intro env st r hv
    have := clipTry_status env st r (clipTempInput env.nowIn)
      (clipTempOutput env.nowOut)
    simpa [clipHandler, hv] using this
  · intro env st r hv
    have := audioTry_status env st r (audioTempInput env.nowIn)
      (audioTempOutput env.nowOut) (audioStorageName r.fileName env.nowStore)
    simpa [audioHandler, hv] using this

/-- Witness for C3: a clip request with `startTime` absent and an
extract-audio request with `inputUrl` absent. -/
theorem missing_field_responds_400_with_no_effects_witness :
    (({ sampleClipRequest with startTime := .undefined } : ClipRequest).inputUrl
        = .undefined ∨
      ({ sampleClipRequest with startTime := .undefined } : ClipRequest).startTime
        = .undefined ∨
      ({ sampleClipRequest with startTime := .undefined } : ClipRequest).endTime
        = .undefined ∨
      ({ sampleClipRequest with startTime := .undefined } : ClipRequest).fileName
        = .undefined) ∧
    (AudioRequest.mk .undefined .undefined).inputUrl = .undefined ∧
    (clipHandler sampleClipEnv []
        { sampleClipRequest with startTime := .undefined }).response.status
      = 400 ∧
    (audioHandler sampleAudioEnv []
        (AudioRequest.mk .undefined .undefined)).response.status = 400 :=
  have h := missing_field_responds_400_with_no_effects sampleClipEnv []
    { sampleClipRequest with startTime := .undefined } sampleAudioEnv []
    (AudioRequest.mk .undefined .undefined)
    (Or.inr (Or.inl rfl)) rfl
  ⟨Or.inr (Or.inl rfl), rfl, h.1.1, h.2.1.1⟩

/-- **C4.**  On either endpoint, if the fetch of `inputUrl` returns a
non-success status or a response with no body, the handler responds 500 with
the corresponding fetch-failure message (`Failed to fetch video` /
`No response body`), and neither the transcoder subprocess nor the storage
upload is ever invoked in the trace. -/
theorem fetch_failure_responds_500_without_transcode_or_upload
    (envC : ClipEnv) (stC : StorageMap) (rC : ClipRequest)
    (envA : AudioEnv) (stA : StorageMap) (rA : AudioRequest)
    (hC : clipValidationFails rC = false)
    (hA : audioValidationFails rA = false)
    (hCf : envC.fetchOk = false ∨ envC.fetchHasBody = false)
    (hAf : envA.fetchOk = false ∨ envA.fetchHasBody = false) :
    ((clipHandler envC stC rC).response.status = 500 ∧
      ((clipHandler envC stC rC).response.body =
          .err ⟨"Failed to fetch video", none⟩ ∨
        (clipHandler envC stC rC).response.body =
          .err ⟨"No response body", none⟩) ∧
      (clipHandler envC stC rC).events.all
        (fun e => !e.isExec && !e.isUpload) = true) ∧
    ((audioHandler envA stA rA).response.status = 500 ∧
      ((audioHandler envA stA rA).response.body =
          .err ⟨"Failed to fetch video", none⟩ ∨
        (audioHandler envA stA rA).response.body =
          .err ⟨"No response body", none⟩) ∧
      (audioHandler envA stA rA).events.all
        (fun e => !e.isExec && !e.isUpload) = true) := by
  constructor
  · obtain ⟨nIn, nOut, fOk, fBody, sErr, eErr, uErr, outc⟩ := envC
    simp only at hCf
    cases fOk <;> cases fBody <;>
      simp_all [clipHandler, hC, clipTry, catchBlock, cleanupBoth,
        unlinkIfExists, Event.isExec, Event.isUpload]
  · obtain ⟨nIn, nOut, nSt, fOk, fBody, sErr, eErr, uErr, outc⟩ := envA
    simp only at hAf
    cases fOk <;> cases fBody <;>
      simp_all [audioHandler, hA, audioTry, catchBlock, cleanupBoth,
        unlinkIfExists, Event.isExec, Event.isUpload]

/-- Witness for C4: a clip run whose fetch returns a non-success status and an
extract-audio run whose fetch response has no body. -/
theorem fetch_failure_responds_500_witness :
    clipValidationFails sampleClipRequest = false ∧
    audioValidationFails sampleAudioRequest = false ∧
    ({ sampleClipEnv with fetchOk := false } : ClipEnv).fetchOk = false ∧
    ({ sampleAudioEnv with fetchHasBody := false } : AudioEnv).fetchHasBody
      = false ∧
    (clipHandler { sampleClipEnv with fetchOk := false } []
        sampleClipRequest).response.status = 500 ∧
    (audioHandler { sampleAudioEnv with fetchHasBody := false } []
        sampleAudioRequest).response.status = 500 ∧
    (clipHandler { sampleClipEnv with fetchOk := false } []
        sampleClipRequest).events.all (fun e => !e.isExec && !e.isUpload)
      = true ∧
    (audioHandler { sampleAudioEnv with fetchHasBody := false } []
        sampleAudioRequest).events.all (fun e => !e.isExec && !e.isUpload)
      = true :=
  have h := fetch_failure_responds_500_without_transcode_or_upload
    { sampleClipEnv with fetchOk := false } [] sampleClipRequest
    { sampleAudioEnv with fetchHasBody := false } [] sampleAudioRequest
    (by decide) (by decide) (Or.inl rfl) (Or.inr rfl)
  ⟨by decide, by decide, rfl, rfl, h.1.1, h.2.1, h.1.2.2, h.2.2.2⟩

/-- **C5.**  On either endpoint, if the transcoder subprocess fails (exits
non-zero or is not found), the handler responds 500 with a body carrying the
error message and the subprocess's captured stderr, and no upload to the
storage collaborator appears in the trace. -/
theorem transcode_failure_responds_500_with_stderr_and_no_upload
    (envC : ClipEnv) (stC : StorageMap) (rC : ClipRequest)
    (envA : AudioEnv) (stA : StorageMap) (rA : AudioRequest)
    (errC errA : ExecError)
    (hC : clipValidationFails rC = false)
    (hA : audioValidationFails rA = false)
    (hCOk : envC.fetchOk = true) (hCBody : envC.fetchHasBody = true)
    (hCs : envC.streamErr = none) (hCe : envC.execErr = some errC)
    (hAOk : envA.fetchOk = true) (hABody : envA.fetchHasBody = true)
    (hAs : envA.streamErr = none) (hAe : envA.execErr = some errA) :
    ((clipHandler envC stC rC).response =
      ⟨500, .err ⟨errC.message, some errC.stderr⟩⟩ ∧
      (clipHandler envC stC rC).events.all (fun e => !e.isUpload) = true ∧
      (clipHandler envC stC rC).storage = stC) ∧
    ((audioHandler envA stA rA).response =
      ⟨500, .err ⟨errA.message, some errA.stderr⟩⟩ ∧
      (audioHandler envA stA rA).events.all (fun e => !e.isUpload) = true ∧
      (audioHandler envA stA rA).storage = stA) := by
  constructor
  · obtain ⟨nIn, nOut, fOk, fBody, sErr, eErr, uErr, outc⟩ := envC
    simp only at hCOk hCBody hCs hCe
    subst hCOk hCBody hCs hCe
    simp [clipHandler, hC, clipTry, catchBlock, cleanupBoth, unlinkIfExists,
      addFile, Event.isUpload]
  · obtain ⟨nIn, nOut, nSt, fOk, fBody, sErr, eErr, uErr, outc⟩ := envA
    simp only at hAOk hABody hAs hAe
    subst hAOk hABody hAs hAe
    simp [audioHandler, hA, audioTry, catchBlock, cleanupBoth, unlinkIfExists,
      addFile, Event.isUpload]

/-- Witness for C5: both endpoints with a failing subprocess. -/
theorem transcode_failure_responds_500_witness :
    clipValidationFails sampleClipRequest = false ∧
    ({ sampleClipEnv with
        execErr := some ⟨"Command failed: ffmpeg", "ffmpeg: no such file"⟩ } :
      ClipEnv).execErr =
        some ⟨"Command failed: ffmpeg", "ffmpeg: no such file"⟩ ∧
    (clipHandler
        { sampleClipEnv with
          execErr := some ⟨"Command failed: ffmpeg", "ffmpeg: no such file"⟩ }
        [] sampleClipRequest).response =
      ⟨500, .err ⟨"Command failed: ffmpeg", some "ffmpeg: no such file"⟩⟩ ∧
    (audioHandler
        { sampleAudioEnv with
          execErr := some ⟨"Command failed: ffmpeg", "ffmpeg: no such file"⟩ }
        [] sampleAudioRequest).response =
      ⟨500, .err ⟨"Command failed: ffmpeg", some "ffmpeg: no such file"⟩⟩ ∧
    (clipHandler
        { sampleClipEnv with
          execErr := some ⟨"Command failed: ffmpeg", "ffmpeg: no such file"⟩ }
        [] sampleClipRequest).events.all (fun e => !e.isUpload) = true :=
  have h := transcode_failure_responds_500_with_stderr_and_no_upload
    { sampleClipEnv with
      execErr := some ⟨"Command failed: ffmpeg", "ffmpeg: no such file"⟩ }
    [] sampleClipRequest
    { sampleAudioEnv with
      execErr := some ⟨"Command failed: ffmpeg", "ffmpeg: no such file"⟩ }
    [] sampleAudioRequest
    ⟨"Command failed: ffmpeg", "ffmpeg: no such file"⟩
    ⟨"Command failed: ffmpeg", "ffmpeg: no such file"⟩
    (by decide) (by decide) rfl rfl rfl rfl rfl rfl rfl rfl
  ⟨by decide, rfl, h.1.1, h.2.1, h.1.2.1⟩

/-- Reading back the key just written: upsert overwrote any prior object. -/
theorem storageGet_storageSet (st : StorageMap) (b k : String)
    (o : StoredObject) : storageGet (storageSet st b k o) b k = some o := by
  simp [storageGet, storageSet, List.find?]

/-- **C7.**  Every successful `/clip` upload targets bucket
`processed-videos`, key `fileName`, content type `video/mp4`, with upsert
(overwrite-if-exists) enabled; repeating an identical successful request
starting from the first run's storage overwrites the stored object under the
same key and both responses carry the public URL of that same key. -/
theorem clip_upload_upsert_idempotent_key
    (env1 env2 : ClipEnv) (st : StorageMap) (r : ClipRequest)
    (hv : clipValidationFails r = false)
    (h1Ok : env1.fetchOk = true) (h1Body : env1.fetchHasBody = true)
    (h1s : env1.streamErr = none) (h1e : env1.execErr = none)
    (h1u : env1.uploadErr = none)
    (h2Ok : env2.fetchOk = true) (h2Body : env2.fetchHasBody = true)
    (h2s : env2.streamErr = none) (h2e : env2.execErr = none)
    (h2u : env2.uploadErr = none) :
    Event.uploadStart "processed-videos" r.fileName.toJSString "video/mp4" true
      ∈ (clipHandler env1 st r).events ∧
    Event.uploadStart "processed-videos" r.fileName.toJSString "video/mp4" true
      ∈ (clipHandler env2 (clipHandler env1 st r).storage r).events ∧
    (clipHandler env1 st r).response =
      ⟨200, .clipped
        (getPublicUrl "processed-videos" r.fileName.toJSString)⟩ ∧
    (clipHandler env2 (clipHandler env1 st r).storage r).response =
      ⟨200, .clipped
        (getPublicUrl "processed-videos" r.fileName.toJSString)⟩ ∧
    storageGet (clipHandler env2 (clipHandler env1 st r).storage r).storage
        "processed-videos" r.fileName.toJSString =
      some ⟨env2.outputContent, "video/mp4"⟩ := by
  obtain ⟨nIn1, nOut1, fOk1, fBody1, sErr1, eErr1, uErr1, outc1⟩ := env1
  obtain ⟨nIn2, nOut2, fOk2, fBody2, sErr2, eErr2, uErr2, outc2⟩ := env2
  simp only at h1Ok h1Body h1s h1e h1u h2Ok h2Body h2s h2e h2u
  subst h1Ok h1Body h1s h1e h1u h2Ok h2Body h2s h2e h2u
  simp [clipHandler, hv, clipTry, catchBlock, cleanupBoth, unlinkIfExists,
    addFile, storageUpload_upsert, storageGet_storageSet]

/-- Witness for C7: two identical successful clip runs in sequence. -/
theorem clip_upload_upsert_idempotent_key_witness :
    clipValidationFails sampleClipRequest = false ∧
    Event.uploadStart "processed-videos"
        sampleClipRequest.fileName.toJSString "video/mp4" true
      ∈ (clipHandler sampleClipEnv [] sampleClipRequest).events ∧
    (clipHandler sampleClipEnv
        (clipHandler sampleClipEnv [] sampleClipRequest).storage
        sampleClipRequest).response =
      ⟨200, .clipped (getPublicUrl "processed-videos"
        sampleClipRequest.fileName.toJSString)⟩ ∧
    storageGet
        (clipHandler sampleClipEnv
          (clipHandler sampleClipEnv [] sampleClipRequest).storage
          sampleClipRequest).storage
        "processed-videos" sampleClipRequest.fileName.toJSString =
      some ⟨sampleClipEnv.outputContent, "video/mp4"⟩ :=
  have h := clip_upload_upsert_idempotent_key sampleClipEnv sampleClipEnv []
    sampleClipRequest (by decide) rfl rfl rfl rfl rfl rfl rfl rfl rfl rfl
  ⟨by decide, h.1, h.2.2.2.1, h.2.2.2.2⟩

/-- **C6, counterexample.**  Two distinct successful `/extract-audio`
invocations without `fileName` that observe the same `Date.now()` reading
(same millisecond) upload under the *same* generated key `audio_100.wav`, so
generated keys are not distinct across repeated calls; and a request whose
`fileName` is given but empty gets the generated key, not the
`fileName`-derived one. -/
theorem audio_generated_key_not_unique_counterexample :
    (⟨.str "https://example.com/a.mp4", .undefined⟩ : AudioRequest) ≠
      ⟨.str "https://example.com/b.mp4", .undefined⟩ ∧
    Event.uploadStart "processed-videos" "audio_100.wav" "audio/wav" true ∈
      (audioHandler sampleAudioEnv []
        ⟨.str "https://example.com/a.mp4", .undefined⟩).events ∧
    Event.uploadStart "processed-videos" "audio_100.wav" "audio/wav" true ∈
      (audioHandler sampleAudioEnv []
        ⟨.str "https://example.com/b.mp4", .undefined⟩).events ∧
    audioStorageName (.str "") 100 = "audio_100.wav" := by decide

/-- **C6, amended.**  For every successful `/extract-audio` request, the
storage key used for both the upload and the URL resolution is
`audioStorageName fileName nowStore`: it equals `fileName ++ "_audio.wav"`
when `fileName` is given and truthy, and the generated name
`audio_<t>.wav` (with `t` the observed `Date.now()` reading) otherwise; the
upload content type is `audio/wav` and the response is 200 with the public
URL of that key.  Generated keys are distinct across calls that observe
distinct `Date.now()` readings. -/
theorem audio_storage_key_and_generated_name
    (env : AudioEnv) (st : StorageMap) (r : AudioRequest)
    (hv : audioValidationFails r = false)
    (hOk : env.fetchOk = true) (hBody : env.fetchHasBody = true)
    (hs : env.streamErr = none) (he : env.execErr = none)
    (hu : env.uploadErr = none) :
    Event.uploadStart "processed-videos"
        (audioStorageName r.fileName env.nowStore) "audio/wav" true
      ∈ (audioHandler env st r).events ∧
    (audioHandler env st r).response =
      ⟨200, .audio (getPublicUrl "processed-videos"
        (audioStorageName r.fileName env.nowStore))⟩ ∧
    (r.fileName.falsy = false →
      audioStorageName r.fileName env.nowStore =
        r.fileName.toJSString ++ "_audio.wav") ∧
    (r.fileName.falsy = true →
      audioStorageName r.fileName env.nowStore =
        "audio_" ++ Nat.repr env.nowStore ++ ".wav") ∧
    (∀ (f1 f2 : JSValue) (n m : Nat), f1.falsy = true → f2.falsy = true →
      n ≠ m → audioStorageName f1 n ≠ audioStorageName f2 m) := by
  refine ⟨?_, ?_, ?_, ?_, ?_⟩
  · obtain ⟨nIn, nOut, nSt, fOk, fBody, sErr, eErr, uErr, outc⟩ := env
    simp only at hOk hBody hs he hu
    subst hOk hBody hs he hu
    simp [audioHandler, hv, audioTry, catchBlock, cleanupBoth, unlinkIfExists,
      addFile, storageUpload_upsert]
  · obtain ⟨nIn, nOut, nSt, fOk, fBody, sErr, eErr, uErr, outc⟩ := env
    simp only at hOk hBody hs he hu
    subst hOk hBody hs he hu
    simp [audioHandler, hv, audioTry, catchBlock, cleanupBoth, unlinkIfExists,
      addFile, storageUpload_upsert]
  · intro hf
    simp [audioStorageName, hf]
  · intro hf
    simp [audioStorageName, hf]
  · intro f1 f2 n m hf1 hf2 hnm heq
    rw [audioStorageName, audioStorageName, if_pos hf1, if_pos hf2] at heq
    exact hnm (audioGeneratedName_inj heq)

/-- Witness for C6 (amended), at a successful run with `fileName = "clip1"`. -/
theorem audio_storage_key_witness :
    audioValidationFails sampleAudioRequest = false ∧
    Event.uploadStart "processed-videos"
        (audioStorageName sampleAudioRequest.fileName sampleAudioEnv.nowStore)
        "audio/wav" true
      ∈ (audioHandler sampleAudioEnv [] sampleAudioRequest).events ∧
    audioStorageName sampleAudioRequest.fileName sampleAudioEnv.nowStore =
      "clip1_audio.wav" ∧
    (∀ (f1 f2 : JSValue) (n m : Nat), f1.falsy = true → f2.falsy = true →
      n ≠ m → audioStorageName f1 n ≠ audioStorageName f2 m) :=
  have h := audio_storage_key_and_generated_name sampleAudioEnv []
    sampleAudioRequest (by decide) rfl rfl rfl rfl rfl
  ⟨by decide, h.1, by decide, h.2.2.2.2⟩

/-- Every file the clip `try` block creates or deletes is one of its two
scratch paths. -/
theorem clipTry_touched (env : ClipEnv) (st : StorageMap) (r : ClipRequest)
    (tin tout : String) (hne : tin ≠ tout) (p : String)
    (hp : Event.createFile p ∈ (clipTry env st r tin tout).events ∨
          Event.deleteFile p ∈ (clipTry env st r tin tout).events) :
    p = tin ∨ p = tout := by
  obtain ⟨nIn, nOut, fOk, fBody, sErr, eErr, uErr, outc⟩ := env
  cases fOk <;> cases fBody <;> cases sErr <;> cases eErr <;> cases uErr <;>
    simp [clipTry, catchBlock, cleanupBoth, unlinkIfExists, addFile,
      storageUpload_upsert, hne, Ne.symm hne] at hp <;> tauto

/-- Every file a `/clip` invocation creates or deletes is one of the two
scratch paths named from its own `Date.now()` readings. -/
theorem clipHandler_touched (env : ClipEnv) (st : StorageMap) (r : ClipRequest)
    (p : String)
    (hp : Event.createFile p ∈ (clipHandler env st r).events ∨
          Event.deleteFile p ∈ (clipHandler env st r).events) :
    p = clipTempInput env.nowIn ∨ p = clipTempOutput env.nowOut := by
  by_cases hv : clipValidationFails r = true
  · simp [clipHandler, hv] at hp
  · simp only [clipHandler, hv, if_false] at hp
    exact clipTry_touched env st r _ _
      (clipTempInput_ne_clipTempOutput env.nowIn env.nowOut) p hp

/-- Every file the extract-audio `try` block creates or deletes is one of its
two scratch paths. -/
theorem audioTry_touched (env : AudioEnv) (st : StorageMap) (r : AudioRequest)
    (tin tout nm : String) (hne : tin ≠ tout) (p : String)
    (hp : Event.createFile p ∈ (audioTry env st r tin tout nm).events ∨
          Event.deleteFile p ∈ (audioTry env st r tin tout nm).events) :
    p = tin ∨ p = tout := by
  obtain ⟨nIn, nOut, nSt, fOk, fBody, sErr, eErr, uErr, outc⟩ := env
  cases fOk <;> cases fBody <;> cases sErr <;> cases eErr <;> cases uErr <;>
    simp [audioTry, catchBlock, cleanupBoth, unlinkIfExists, addFile,
      storageUpload_upsert, hne, Ne.symm hne] at hp <;> tauto

/-- Every file an `/extract-audio` invocation creates or deletes is one of
the two scratch paths named from its own `Date.now()` readings. -/
theorem audioHandler_touched (env : AudioEnv) (st : StorageMap)
    (r : AudioRequest) (p : String)
    (hp : Event.createFile p ∈ (audioHandler env st r).events ∨
          Event.deleteFile p ∈ (audioHandler env st r).events) :
    p = audioTempInput env.nowIn ∨ p = audioTempOutput env.nowOut := by
  by_cases hv : audioValidationFails r = true
  · simp [audioHandler, hv] at hp
  · simp only [audioHandler, hv, if_false] at hp
    exact audioTry_touched env st r _ _ _
      (audioTempInput_ne_audioTempOutput env.nowIn env.nowOut) p hp

/-- Scratch paths of two clip invocations with distinct clock readings never
coincide. -/
theorem clipPaths_disjoint {n1 o1 n2 o2 : Nat} (hIn : n1 ≠ n2)
    (hOut : o1 ≠ o2) (p : String)
    (h1 : p = clipTempInput n1 ∨ p = clipTempOutput o1)
    (h2 : p = clipTempInput n2 ∨ p = clipTempOutput o2) : False := by
  rcases h1 with h1 | h1 <;> rcases h2 with h2 | h2 <;> subst h1
  · exact hIn (clipTempInput_inj h2)
  · exact clipTempInput_ne_clipTempOutput _ _ h2
  · exact clipTempInput_ne_clipTempOutput _ _ h2.symm
  · exact hOut (clipTempOutput_inj h2)

/-- Scratch paths of two extract-audio invocations with distinct clock
readings never coincide. -/
theorem audioPaths_disjoint {n1 o1 n2 o2 : Nat} (hIn : n1 ≠ n2)
    (hOut : o1 ≠ o2) (p : String)
    (h1 : p = audioTempInput n1 ∨ p = audioTempOutput o1)
    (h2 : p = audioTempInput n2 ∨ p = audioTempOutput o2) : False := by
  rcases h1 with h1 | h1 <;> rcases h2 with h2 | h2 <;> subst h1
  · exact hIn (audioTempInput_inj h2)
  · exact audioTempInput_ne_audioTempOutput _ _ h2
  · exact audioTempInput_ne_audioTempOutput _ _ h2.symm
  · exact hOut (audioTempOutput_inj h2)

/-- A clip invocation's scratch paths never coincide with an extract-audio
invocation's, whatever the clock readings (the embedded prefixes differ). -/
theorem crossPaths_disjoint {n1 o1 n2 o2 : Nat} (p : String)
    (h1 : p = clipTempInput n1 ∨ p = clipTempOutput o1)
    (h2 : p = audioTempInput n2 ∨ p = audioTempOutput o2) : False := by
  rcases h1 with h1 | h1 <;> rcases h2 with h2 | h2 <;> subst h1
  · exact clipTempInput_ne_audioTempInput _ _ h2
  · exact clipTempInput_ne_audioTempOutput _ _ h2
  · exact clipTempOutput_ne_audioTempInput _ _ h2
  · exact clipTempOutput_ne_audioTempOutput _ _ h2

/-- **C2, counterexample.**  Two *distinct* `/clip` invocations that observe
the same `Date.now()` reading (same millisecond) create the *same* scratch
path `temp/input_100.mp4`, and the second invocation's trace deletes that
very path, so the embedded timestamp does not make concurrent scratch paths
distinct and a colliding invocation does delete the other's in-flight file. -/
theorem clip_scratch_path_collision_counterexample :
    sampleClipRequest ≠
      (⟨.str "https://example.com/w.mp4", .num 3, .num 4, .str "clip2.mp4"⟩ :
        ClipRequest) ∧
    Event.createFile (clipTempInput 100) ∈
      (clipHandler sampleClipEnv [] sampleClipRequest).events ∧
    Event.createFile (clipTempInput 100) ∈
      (clipHandler sampleClipEnv []
        ⟨.str "https://example.com/w.mp4", .num 3, .num 4,
          .str "clip2.mp4"⟩).events ∧
    Event.deleteFile (clipTempInput 100) ∈
      (clipHandler sampleClipEnv []
        ⟨.str "https://example.com/w.mp4", .num 3, .num 4,
          .str "clip2.mp4"⟩).events := by decide

/-- **C2, amended.**  Handler invocations that observe pairwise distinct
`Date.now()` readings create disjoint scratch paths, and no such invocation
ever creates or deletes a path belonging to the other: this holds for two
clip invocations with distinct readings, for two extract-audio invocations
with distinct readings, and between a clip and an extract-audio invocation
unconditionally (their embedded name prefixes differ). -/
theorem scratch_paths_disjoint_for_distinct_clock_readings
    (env1 env2 : ClipEnv) (st1 st2 : StorageMap) (r1 r2 : ClipRequest)
    (envA1 envA2 : AudioEnv) (stA1 stA2 : StorageMap) (rA1 rA2 : AudioRequest)
    (hIn : env1.nowIn ≠ env2.nowIn) (hOut : env1.nowOut ≠ env2.nowOut)
    (hAIn : envA1.nowIn ≠ envA2.nowIn) (hAOut : envA1.nowOut ≠ envA2.nowOut) :
    (∀ p, Event.createFile p ∈ (clipHandler env1 st1 r1).events →
      Event.createFile p ∉ (clipHandler env2 st2 r2).events ∧
      Event.deleteFile p ∉ (clipHandler env2 st2 r2).events) ∧
    (∀ p, Event.createFile p ∈ (audioHandler envA1 stA1 rA1).events →
      Event.createFile p ∉ (audioHandler envA2 stA2 rA2).events ∧
      Event.deleteFile p ∉ (audioHandler envA2 stA2 rA2).events) ∧
    (∀ p, Event.createFile p ∈ (clipHandler env1 st1 r1).events →
      Event.createFile p ∉ (audioHandler envA1 stA1 rA1).events ∧
      Event.deleteFile p ∉ (audioHandler envA1 stA1 rA1).events) := by
  refine ⟨fun p hc => ⟨fun hm => ?_, fun hm => ?_⟩,
    fun p hc => ⟨fun hm => ?_, fun hm => ?_⟩,
    fun p hc => ⟨fun hm => ?_, fun hm => ?_⟩⟩
  · exact clipPaths_disjoint hIn hOut p
      (clipHandler_touched env1 st1 r1 p (Or.inl hc))
      (clipHandler_touched env2 st2 r2 p (Or.inl hm))
  · exact clipPaths_disjoint hIn hOut p
      (clipHandler_touched env1 st1 r1 p (Or.inl hc))
      (clipHandler_touched env2 st2 r2 p (Or.inr hm))
  · exact audioPaths_disjoint hAIn hAOut p
      (audioHandler_touched envA1 stA1 rA1 p (Or.inl hc))
      (audioHandler_touched envA2 stA2 rA2 p (Or.inl hm))
  · exact audioPaths_disjoint hAIn hAOut p
      (audioHandler_touched envA1 stA1 rA1 p (Or.inl hc))
      (audioHandler_touched envA2 stA2 rA2 p (Or.inr hm))
  · exact crossPaths_disjoint p
      (clipHandler_touched env1 st1 r1 p (Or.inl hc))
      (audioHandler_touched envA1 stA1 rA1 p (Or.inl hm))
  · exact crossPaths_disjoint p
      (clipHandler_touched env1 st1 r1 p (Or.inl hc))
      (audioHandler_touched envA1 stA1 rA1 p (Or.inr hm))

/-- Witness for C2 (amended): two clip runs and two audio runs whose clock
readings differ. -/
theorem scratch_paths_disjoint_witness :
    ({ sampleClipEnv with nowIn := 100, nowOut := 101 } : ClipEnv).nowIn ≠
      ({ sampleClipEnv with nowIn := 102, nowOut := 103 } : ClipEnv).nowIn ∧
    (∀ p, Event.createFile p ∈
        (clipHandler { sampleClipEnv with nowIn := 100, nowOut := 101 } []
          sampleClipRequest).events →
      Event.createFile p ∉
        (clipHandler { sampleClipEnv with nowIn := 102, nowOut := 103 } []
          sampleClipRequest).events ∧
      Event.deleteFile p ∉
        (clipHandler { sampleClipEnv with nowIn := 102, nowOut := 103 } []
          sampleClipRequest).events) ∧
    (∀ p, Event.createFile p ∈
        (clipHandler { sampleClipEnv with nowIn := 100, nowOut := 101 } []
          sampleClipRequest).events →
      Event.createFile p ∉
        (audioHandler { sampleAudioEnv with nowIn := 100, nowOut := 101 } []
          sampleAudioRequest).events ∧
      Event.deleteFile p ∉
        (audioHandler { sampleAudioEnv with nowIn := 100, nowOut := 101 } []
          sampleAudioRequest).events) :=
  have h := scratch_paths_disjoint_for_distinct_clock_readings
    { sampleClipEnv with nowIn := 100, nowOut := 101 }
    { sampleClipEnv with nowIn := 102, nowOut := 103 } [] []
    sampleClipRequest sampleClipRequest
    { sampleAudioEnv with nowIn := 100, nowOut := 101 }
    { sampleAudioEnv with nowIn := 102, nowOut := 103 } [] []
    sampleAudioRequest sampleAudioRequest
    (by decide) (by decide) (by decide) (by decide)
  ⟨by decide, h.1, h.2.2⟩

/-- **C9.**  The `/clip` validation tests `startTime`/`endTime` only for
being exactly `undefined` but `inputUrl`/`fileName` for JavaScript
falsiness: with the other fields valid, a request with `startTime = 0` or
`startTime = null` is *not* rejected with 400 (it proceeds to the pipeline),
while a request whose `fileName` or `inputUrl` is the empty string (present
but falsy) is rejected with 400 exactly as if the field were absent, with no
effects. -/
theorem clip_validation_undefined_vs_falsiness
    (env : ClipEnv) (st : StorageMap) (u e f s : JSValue)
    (hu : u.falsy = false) (he : (e == JSValue.undefined) = false)
    (hf : f.falsy = false) :
    (clipHandler env st ⟨u, .num 0, e, f⟩).response.status ≠ 400 ∧
    (clipHandler env st ⟨u, .null, e, f⟩).response.status ≠ 400 ∧
    ((clipHandler env st ⟨u, s, e, .str ""⟩).response.status = 400 ∧
      (clipHandler env st ⟨u, s, e, .str ""⟩).events = [Event.respond 400]) ∧
    ((clipHandler env st ⟨.str "", s, e, f⟩).response.status = 400 ∧
      (clipHandler env st ⟨.str "", s, e, f⟩).events = [Event.respond 400]) := by
  have h0 : (JSValue.num 0 == JSValue.undefined) = false := by decide
  have hnull : (JSValue.null == JSValue.undefined) = false := by decide
  have hval1 : clipValidationFails ⟨u, .num 0, e, f⟩ = false := by
    simp only [clipValidationFails, hu, h0, he, hf]
    rfl
  have hval2 : clipValidationFails ⟨u, .null, e, f⟩ = false := by
    simp only [clipValidationFails, hu, hnull, he, hf]
    rfl
  have hval3 : clipValidationFails ⟨u, s, e, .str ""⟩ = true := by
    simp [clipValidationFails, JSValue.falsy]
  have hval4 : clipValidationFails ⟨.str "", s, e, f⟩ = true := by
    simp [clipValidationFails, JSValue.falsy]
  refine ⟨?_, ?_, ?_, ?_⟩
  · rcases clipTry_status env st ⟨u, .num 0, e, f⟩ (clipTempInput env.nowIn)
      (clipTempOutput env.nowOut) with h | h <;>
      simp [clipHandler, hval1, h]
  · rcases clipTry_status env st ⟨u, .null, e, f⟩ (clipTempInput env.nowIn)
      (clipTempOutput env.nowOut) with h | h <;>
      simp [clipHandler, hval2, h]
  · simp [clipHandler, hval3]
  · simp [clipHandler, hval4]

/-- Witness for C9 at concrete field values. -/
theorem clip_validation_undefined_vs_falsiness_witness :
    (JSValue.str "https://example.com/v.mp4").falsy = false ∧
    ((JSValue.num 2 == JSValue.undefined) = false) ∧
    (JSValue.str "clip1.mp4").falsy = false ∧
    (clipHandler sampleClipEnv []
      ⟨.str "https://example.com/v.mp4", .num 0, .num 2,
        .str "clip1.mp4"⟩).response.status ≠ 400 ∧
    (clipHandler sampleClipEnv []
      ⟨.str "https://example.com/v.mp4", .null, .num 2,
        .str "clip1.mp4"⟩).response.status ≠ 400 ∧
    (clipHandler sampleClipEnv []
      ⟨.str "https://example.com/v.mp4", .num 1, .num 2,
        .str ""⟩).response.status = 400 ∧
    (clipHandler sampleClipEnv []
      ⟨.str "", .num 1, .num 2, .str "clip1.mp4"⟩).response.status = 400 :=
  have h := clip_validation_undefined_vs_falsiness sampleClipEnv []
    (.str "https://example.com/v.mp4") (.num 2) (.str "clip1.mp4") (.num 1)
    (by decide) (by decide) (by decide)
  ⟨by decide, by decide, by decide, h.1, h.2.1, h.2.2.1.1, h.2.2.2.1⟩

/-- The `startTime` string appears verbatim (uninterpreted, unquoted) inside
the constructed clip command. -/
theorem startTime_infix_clipCommand (s e tIn tOut : String) :
    s.data <:+: (clipCommand s e tIn tOut).data := by
  refine ⟨"ffmpeg -ss ".data,
    (" -to " ++ e ++ " -i \"" ++ tIn ++ "\" -vf \"" ++ filterComplex ++
      "\" -c:v libx264 -c:a aac -preset ultrafast -crf 30 -threads 1 -y \"" ++
      tOut ++ "\"").data, ?_⟩
  simp [clipCommand]

/-- The `endTime` string appears verbatim inside the constructed clip
command. -/
theorem endTime_infix_clipCommand (s e tIn tOut : String) :
    e.data <:+: (clipCommand s e tIn tOut).data := by
  refine ⟨("ffmpeg -ss " ++ s ++ " -to ").data,
    (" -i \"" ++ tIn ++ "\" -vf \"" ++ filterComplex ++
      "\" -c:v libx264 -c:a aac -preset ultrafast -crf 30 -threads 1 -y \"" ++
      tOut ++ "\"").data, ?_⟩
  simp [clipCommand]

/-- **C10.**  Every command string the `/clip` handler passes to the
subprocess executor is exactly the template-literal interpolation
`clipCommand` of the request's `startTime` and `endTime` (as coerced by the
template literal) and the two scratch paths, and the supplied `startTime` and
`endTime` strings appear verbatim — unquoted, unescaped and unvalidated —
inside it. -/
theorem clip_command_interpolates_times_verbatim
    (env : ClipEnv) (st : StorageMap) (r : ClipRequest) (cmd : String)
    (hmem : Event.execStart cmd ∈ (clipHandler env st r).events) :
    cmd = clipCommand r.startTime.toJSString r.endTime.toJSString
      (clipTempInput env.nowIn) (clipTempOutput env.nowOut) ∧
    r.startTime.toJSString.data <:+: cmd.data ∧
    r.endTime.toJSString.data <:+: cmd.data := by
  obtain ⟨nIn, nOut, fOk, fBody, sErr, eErr, uErr, outc⟩ := env
  by_cases hv : clipValidationFails r = true
  · simp [clipHandler, hv] at hmem
  · simp only [clipHandler, hv, if_false] at hmem
    have hne := clipTempInput_ne_clipTempOutput nIn nOut
    cases fOk <;> cases fBody <;> cases sErr <;> cases eErr <;> cases uErr <;>
      simp [clipTry, catchBlock, cleanupBoth, unlinkIfExists, addFile,
        storageUpload_upsert, hne, Ne.symm hne] at hmem <;>
      exact ⟨hmem, hmem ▸ startTime_infix_clipCommand _ _ _ _,
        hmem ▸ endTime_infix_clipCommand _ _ _ _⟩

set_option maxRecDepth 8192 in
/-- Witness for C10: the command of a concrete successful clip run. -/
theorem clip_command_interpolates_times_verbatim_witness :
    Event.execStart
        (clipCommand "1" "2" (clipTempInput 100) (clipTempOutput 100)) ∈
      (clipHandler sampleClipEnv [] sampleClipRequest).events ∧
    clipCommand "1" "2" (clipTempInput 100) (clipTempOutput 100) =
      clipCommand sampleClipRequest.startTime.toJSString
        sampleClipRequest.endTime.toJSString
        (clipTempInput sampleClipEnv.nowIn)
        (clipTempOutput sampleClipEnv.nowOut) ∧
    sampleClipRequest.startTime.toJSString.data <:+:
      (clipCommand "1" "2" (clipTempInput 100) (clipTempOutput 100)).data ∧
    sampleClipRequest.endTime.toJSString.data <:+:
      (clipCommand "1" "2" (clipTempInput 100) (clipTempOutput 100)).data :=
  have h := clip_command_interpolates_times_verbatim sampleClipEnv []
    sampleClipRequest
    (clipCommand "1" "2" (clipTempInput 100) (clipTempOutput 100))
    (by decide)
  ⟨by decide, h.1, h.2.1, h.2.2⟩

/-- The chunkwise download writes exactly the whole body to the file. -/
theorem streamToFile_file (chunks : List (List Nat)) (file : List Nat)
    (peak : Nat) : (streamToFile chunks file peak).1 = file ++ chunks.flatten := by
  induction chunks generalizing file peak with
  | nil => simp [streamToFile]
  | cons c rest ih => simp [streamToFile, ih]

/-- The chunkwise download never holds more than one chunk in memory. -/
theorem streamToFile_peak_le (chunks : List (List Nat)) (file : List Nat)
    (peak B : Nat) (hp : peak ≤ B) (hB : ∀ c ∈ chunks, c.length ≤ B) :
    (streamToFile chunks file peak).2 ≤ B := by
  induction chunks generalizing file peak with
  | nil => simpa [streamToFile] using hp
  | cons c rest ih =>
    simp only [streamToFile]
    exact ih _ _ (by simp [hp, hB c (by simp)]) (fun d hd => hB d (by simp [hd]))

/-- Folding list concatenation materialises the whole body. -/
theorem foldl_append_flatten (chunks : List (List Nat)) (acc : List Nat) :
    chunks.foldl (fun a c => a ++ c) acc = acc ++ chunks.flatten := by
  induction chunks generalizing acc with
  | nil => simp
  | cons c rest ih => simp [ih]

/-- **C8.**  The download stage of `server.ts` is the chunk-at-a-time
`streamDownload` (`Readable.fromWeb(response.body).pipe(fileStream)`): it
writes the full body to the scratch file while the body bytes simultaneously
held in memory never exceed one chunk — a bound independent of the number of
chunks and hence of total file size — whereas the historical buffering
variant (`dist/temp/server.js`, `response.arrayBuffer()`), writing the same
bytes, holds the entire file in memory at its peak. -/
theorem streaming_download_constant_memory
    (chunks : List (List Nat)) (B : Nat) (hB : ∀ c ∈ chunks, c.length ≤ B) :
    (streamDownload chunks).1 = chunks.flatten ∧
    (streamDownload chunks).2 ≤ B ∧
    (bufferDownload chunks).1 = chunks.flatten ∧
    (bufferDownload chunks).2 = chunks.flatten.length := by
  refine ⟨?_, ?_, ?_, ?_⟩
  · simpa using streamToFile_file chunks [] 0
  · exact streamToFile_peak_le chunks [] 0 B (Nat.zero_le B) hB
  · simpa [bufferDownload] using foldl_append_flatten chunks []
  · simp [bufferDownload, foldl_append_flatten]

/-- Witness for C8: a two-chunk body whose chunks are at most 2 bytes; the
streaming peak stays at 2 while the buffering peak is the full 3-byte size. -/
theorem streaming_download_constant_memory_witness :
    (∀ c ∈ [[1, 2], [3]], List.length c ≤ 2) ∧
    (streamDownload [[1, 2], [3]]).1 = [1, 2, 3] ∧
    (streamDownload [[1, 2], [3]]).2 ≤ 2 ∧
    (bufferDownload [[1, 2], [3]]).2 = 3 :=
  have h := streaming_download_constant_memory [[1, 2], [3]] 2 (by decide)
  ⟨by decide, by decide, h.2.1, by decide⟩
